import Mathlib

/-!
Verification development for the redo log engine in
`storage/innobase/log/log0log.cc` and `storage/innobase/include/log0log.h`.

The stateful C++ code is shallowly embedded as pure Lean functions over
explicit state records.  Machine integers are modelled as `Nat` (the widths
involved are 64-bit `lsn_t`/`ulint`; an explicit `% 2^32` is used where the
source computes in `uint32_t`).  File I/O never fails in the model (all
`dberr_t` results in the embedded paths are `DB_SUCCESS`); file writes,
flushes, checkpoint-record writes and sleeps are recorded as explicit event
lists so that theorems can speak about which I/O a call performs.

Parts of the program that the claims depend on but that live outside the two
source files (the block codec of `log0log.ic`, the group-commit locks of
`log0sync.cc`, `ut_crc32`, `mlog_encode_varint`) are modelled from the spec;
each such definition carries a doc comment saying so.
-/

namespace InnoRedo

/-! ## Circular data file: `redo::redo_t` (log0log.cc lines 2115-2141) -/

/-- A single write to the data file: the byte offset and the bytes written. -/
structure WriteEv where
  offset : Nat
  data : List Nat
deriving DecidableEq

/-- The state of `redo::redo_t`'s circular data file: the fixed file size
`m_data_file_size`, the write cursor `m_data_file_position` and the per-wrap
sequence bit `m_sequence_bit` (a one-bit field in the source). -/
structure RedoT where
  m_data_file_size : Nat
  m_data_file_position : Nat
  m_sequence_bit : Bool
deriving DecidableEq

/-- Embedding of `redo_t::flip_sequence_bit` (`m_sequence_bit= ~m_sequence_bit`
on a one-bit field). -/
def RedoT.flip_sequence_bit (r : RedoT) : RedoT :=
  { r with m_sequence_bit := !r.m_sequence_bit }

/-- Embedding of `redo_t::append_wrapped` (log0log.cc lines 2115-2141):
if the buffer does not fit before end-of-file, write the tail segment, reset
the cursor to 0, flip the sequence bit and continue with the remainder; after
the (final) write, a cursor that landed exactly at end-of-file is reset to 0.
Returns the new state and the list of data-file writes performed. -/
def RedoT.append_wrapped (r : RedoT) (buf : List Nat) : RedoT × List WriteEv :=
  if r.m_data_file_position + buf.length > r.m_data_file_size then
    let tail_length := r.m_data_file_size - r.m_data_file_position
    let ev1 : WriteEv := ⟨r.m_data_file_position, buf.take tail_length⟩
    let buf2 := buf.drop tail_length
    let r1 := RedoT.flip_sequence_bit { r with m_data_file_position := 0 }
    let ev2 : WriteEv := ⟨r1.m_data_file_position, buf2⟩
    let pos := r1.m_data_file_position + buf2.length
    ({ r1 with m_data_file_position := if pos = r.m_data_file_size then 0 else pos },
     [ev1, ev2])
  else
    let ev : WriteEv := ⟨r.m_data_file_position, buf⟩
    let pos := r.m_data_file_position + buf.length
    ({ r with m_data_file_position := if pos = r.m_data_file_size then 0 else pos },
     [ev])

/-! ## Record framing: CRC-32C, big-endian stores, varint -/

/-- Modelled from the spec: one bit-step of the reflected CRC-32C (Castagnoli)
computation, polynomial `0x82F63B78`. -/
def crc32c_bit (c : Nat) : Nat :=
  if c % 2 = 1 then (c / 2) ^^^ 0x82F63B78 else c / 2

/-- Eight CRC bit-steps, one input byte. -/
def crc32c_byte (c b : Nat) : Nat :=
  crc32c_bit (crc32c_bit (crc32c_bit (crc32c_bit
    (crc32c_bit (crc32c_bit (crc32c_bit (crc32c_bit (c ^^^ b))))))))

/-- Modelled from the spec: `ut_crc32`, the CRC-32C checksum of a byte string
(the spec fixes the record checksum to be CRC-32C; the implementation of
`ut_crc32` is outside the two source files). -/
def ut_crc32 (l : List Nat) : Nat :=
  (l.foldl crc32c_byte 0xFFFFFFFF) ^^^ 0xFFFFFFFF

/-- Embedding of `mach_write_to_4`: big-endian 4-byte store. -/
def mach_write_to_4 (v : Nat) : List Nat :=
  [v / 2 ^ 24 % 256, v / 2 ^ 16 % 256, v / 2 ^ 8 % 256, v % 256]

/-- Smallest value needing a 2-byte varint encoding. -/
def MIN_2BYTE : Nat := 2 ^ 7
/-- Smallest value needing a 3-byte varint encoding. -/
def MIN_3BYTE : Nat := MIN_2BYTE + 2 ^ 14
/-- Smallest value needing a 4-byte varint encoding. -/
def MIN_4BYTE : Nat := MIN_3BYTE + 2 ^ 21
/-- Smallest value needing a 5-byte varint encoding. -/
def MIN_5BYTE : Nat := MIN_4BYTE + 2 ^ 28

/-- Modelled from the spec: `mlog_encode_varint`, the variable-length integer
encoder used for record headers (only its use sites are in the source files;
`initialize_files` adjusts lengths at the `MIN_2BYTE`/`MIN_3BYTE` boundaries,
fixing the one, two and three byte ranges used here).  A value below `MIN_2BYTE` is one
byte; each following range subtracts its base and spends a longer prefix. -/
def mlog_encode_varint (v : Nat) : List Nat :=
  if v < MIN_2BYTE then [v]
  else if v < MIN_3BYTE then
    let w := v - MIN_2BYTE
    [0x80 + w / 2 ^ 8, w % 256]
  else if v < MIN_4BYTE then
    let w := v - MIN_3BYTE
    [0xc0 + w / 2 ^ 16, w / 2 ^ 8 % 256, w % 256]
  else if v < MIN_5BYTE then
    let w := v - MIN_4BYTE
    [0xe0 + w / 2 ^ 24, w / 2 ^ 16 % 256, w / 2 ^ 8 % 256, w % 256]
  else
    let w := v - MIN_5BYTE
    [0xf0 + w / 2 ^ 32, w / 2 ^ 24 % 256, w / 2 ^ 16 % 256, w / 2 ^ 8 % 256, w % 256]

/-- Embedding of `redo_t::append_mtr_data` (log0log.cc lines 2028-2056).
The payload of the mini-transaction buffer is taken as a flat byte list (the
accumulating functor concatenates the `mtr_buf_t` blocks in order).  The
header is first encoded with `size << 2` only (no skip bit, no sequence bit),
the CRC is computed over that header plus the payload, the CRC is appended,
and only then — under the mutex — is the header re-encoded in place with the
real sequence bit.  `size` is a `uint32_t` in the source, hence the `% 2^32`.
Returns the append result together with the record bytes handed to
`append_wrapped`. -/
def RedoT.append_mtr_data (r : RedoT) (payload : List Nat) :
    (RedoT × List WriteEv) × List Nat :=
  let size := (payload.length + 4) % 2 ^ 32
  let header := mlog_encode_varint (size * 4 % 2 ^ 32)
  let v := header ++ payload
  let crc := ut_crc32 v
  let v1 := v ++ mach_write_to_4 crc
  let skip_bit := 0
  let seq := if r.m_sequence_bit then 1 else 0
  let header2 := mlog_encode_varint ((size * 4 % 2 ^ 32) + skip_bit * 2 + seq)
  let v2 := header2 ++ v1.drop header2.length
  (r.append_wrapped v2, v2)

/-- Definition following the words of the spec and of the claim about record
framing: a record whose CRC-32C is computed over the header and payload bytes
exactly as they are written to the file (header already carrying the skip and
sequence bits). -/
def specRecordBytes (sequence_bit : Bool) (payload : List Nat) : List Nat :=
  let size := (payload.length + 4) % 2 ^ 32
  let header := mlog_encode_varint
    ((size * 4 % 2 ^ 32) + (if sequence_bit then 1 else 0))
  header ++ payload ++ mach_write_to_4 (ut_crc32 (header ++ payload))

/-! ## Block codec and `log_write_low` (log0log.cc lines 265-331) -/

/-- Size of a log block in bytes (`OS_FILE_LOG_BLOCK_SIZE`). -/
def OS_FILE_LOG_BLOCK_SIZE : Nat := 512
/-- Size of the log block header (`LOG_BLOCK_HDR_SIZE`). -/
def LOG_BLOCK_HDR_SIZE : Nat := 12
/-- Size of the log block checksum trailer (`LOG_BLOCK_CHECKSUM`). -/
def LOG_BLOCK_CHECKSUM : Nat := 4
/-- Size of the per-block encryption key slot (`LOG_BLOCK_KEY`),
present in the `FORMAT_ENC_10_4` format only. -/
def LOG_BLOCK_KEY : Nat := 4

/-- Embedding of `log_t::trailer_offset()` (log0log.h lines 790-795);
the argument tells whether the format is `FORMAT_ENC_10_4`. -/
def trailer_offset (enc_10_4 : Bool) : Nat :=
  if enc_10_4 then OS_FILE_LOG_BLOCK_SIZE - LOG_BLOCK_CHECKSUM - LOG_BLOCK_KEY
  else OS_FILE_LOG_BLOCK_SIZE - LOG_BLOCK_CHECKSUM

/-- Embedding of `log_t::framing_size()` (log0log.h lines 775-780). -/
def framing_size (enc_10_4 : Bool) : Nat :=
  if enc_10_4 then LOG_BLOCK_HDR_SIZE + LOG_BLOCK_KEY + LOG_BLOCK_CHECKSUM
  else LOG_BLOCK_HDR_SIZE + LOG_BLOCK_CHECKSUM

/-- Modelled from the spec (§3, block-number invariant): the block codec's
`log_block_convert_lsn_to_no`, `block_no(lsn) = 1 + (lsn / 512) mod 2^31`
(the codec itself lives in `log0log.ic`, outside the source files). -/
def log_block_convert_lsn_to_no (lsn : Nat) : Nat :=
  1 + (lsn / OS_FILE_LOG_BLOCK_SIZE) % 2 ^ 31

/-- Modelled from the spec (§3, §4.2): the header fields of one log block.
`checkpoint_no = none` records that the checkpoint-generation field has not
been stamped since the block was initialised. -/
structure LogBlock where
  hdr_no : Nat
  data_len : Nat
  first_rec_group : Nat
  checkpoint_no : Option Nat
deriving DecidableEq

/-- Modelled from the spec (§4.2 `init_block(buf, lsn)`): initialise a block
header from the lsn of its first byte; the data length starts at the header
size and no first-record-group or checkpoint generation is set. -/
def log_block_init (lsn : Nat) : LogBlock :=
  { hdr_no := log_block_convert_lsn_to_no lsn
    data_len := LOG_BLOCK_HDR_SIZE
    first_rec_group := 0
    checkpoint_no := none }

/-- The part of the global log state that `log_write_low` touches: the lsn,
the buffer-free offset, the next checkpoint generation and the block headers
of the staging buffer, indexed by `buf_free / 512`. -/
structure LogWriteState where
  lsn : Nat
  buf_free : Nat
  next_checkpoint_no : Nat
  blocks : Nat → LogBlock

/-- Embedding of one `part_loop` iteration of `log_write_low` (log0log.cc
lines 278-328).  Returns the new state, the remaining string length, and the
`memcpy` performed as the pair (destination offset `buf_free`, length). -/
def log_write_low_step (enc_10_4 : Bool) (s : LogWriteState) (str_len : Nat) :
    (LogWriteState × Nat) × (Nat × Nat) :=
  let t := trailer_offset enc_10_4
  let off := s.buf_free % OS_FILE_LOG_BLOCK_SIZE
  let dl := off + str_len
  let data_len := if dl ≤ t then dl else t
  let len := if dl ≤ t then str_len else t - off
  let i := s.buf_free / OS_FILE_LOG_BLOCK_SIZE
  let b := s.blocks i
  if data_len = t then
    -- the block became full: set its length to a full block, stamp the
    -- checkpoint generation, account for the framing and initialise the
    -- next block's header with the advanced lsn
    let bFull : LogBlock :=
      { b with data_len := OS_FILE_LOG_BLOCK_SIZE
               checkpoint_no := some s.next_checkpoint_no }
    let len2 := len + framing_size enc_10_4
    let lsn2 := s.lsn + len2
    let blocks2 := fun j =>
      if j = i then bFull else if j = i + 1 then log_block_init lsn2 else s.blocks j
    (({ s with lsn := lsn2, buf_free := s.buf_free + len2, blocks := blocks2 },
      str_len - len), (s.buf_free, len))
  else
    let b2 : LogBlock := { b with data_len := data_len }
    let blocks2 := fun j => if j = i then b2 else s.blocks j
    (({ s with lsn := s.lsn + len, buf_free := s.buf_free + len, blocks := blocks2 },
      str_len - len), (s.buf_free, len))

/-- The `part_loop` of `log_write_low`, driven by explicit fuel (the loop
re-runs while string bytes remain; `str_len + 1` fuel always suffices because
every iteration consumes at least one byte when the in-block offset is below
the trailer offset). -/
def log_write_low_aux (enc_10_4 : Bool) :
    Nat → LogWriteState → Nat → LogWriteState × List (Nat × Nat)
  | 0, s, _ => (s, [])
  | fuel + 1, s, str_len =>
    let r := log_write_low_step enc_10_4 s str_len
    if r.1.2 = 0 then (r.1.1, [r.2])
    else
      let rest := log_write_low_aux enc_10_4 fuel r.1.1 r.1.2
      (rest.1, r.2 :: rest.2)

/-- Embedding of `log_write_low` (log0log.cc lines 265-331). -/
def log_write_low (enc_10_4 : Bool) (s : LogWriteState) (str_len : Nat) :
    LogWriteState × List (Nat × Nat) :=
  log_write_low_aux enc_10_4 (str_len + 1) s str_len

/-! ## Global log state and the write/flush/checkpoint machinery -/

/-- I/O events performed by the embedded log functions. -/
inductive LogEv where
  /-- A write of the staging buffer area `[area_start, area_end)` to the
  data file (`log_write_buf` called from `log_write`). -/
  | data_write (area_start area_end : Nat) : LogEv
  /-- An `fdatasync`-style flush of the data file. -/
  | data_flush : LogEv
  /-- A durable checkpoint record written at the given lsn
  (`redo::new_redo.append_checkpoint_durable`). -/
  | checkpoint_write (lsn : Nat) : LogEv
  /-- The rate-limited "transaction log file is too small" warning naming the
  offending margin value. -/
  | margin_warning (margin : Nat) : LogEv
  /-- The 100 ms `os_thread_sleep` in `log_margin_checkpoint_age`. -/
  | sleep : LogEv
deriving DecidableEq

/-- The fields of the singleton `log_t log_sys` that the embedded functions
read or write, together with the committed-lsn values of the two group-commit
locks.  The lock values are modelled from the spec (§4.6): `acquire(lsn)`
returns `ACQUIRED` exactly when the committed value has not yet reached `lsn`
(otherwise the caller is, or after waiting becomes, covered), and
`release(lsn)` publishes `lsn` as the committed value. -/
structure LogSys where
  lsn : Nat
  buf_free : Nat
  buf_next_to_write : Nat
  first_in_use : Bool
  write_lsn : Nat
  flushed_to_disk_lsn : Nat
  last_checkpoint_lsn : Nat
  next_checkpoint_lsn : Nat
  next_checkpoint_no : Nat
  n_pending_checkpoint_writes : Nat
  n_log_ios : Nat
  check_flush_or_checkpoint : Bool
  log_capacity : Nat
  max_modified_age_async : Nat
  max_modified_age_sync : Nat
  max_checkpoint_age_async : Nat
  max_checkpoint_age : Nat
  write_lock_value : Nat
  flush_lock_value : Nat
deriving DecidableEq

/-- Embedding of the static `log_write()` (log0log.cc lines 977-1073): if the
buffer holds nothing new, return at once; otherwise snapshot the area to
write, switch the staging buffer (`log_buffer_switch`: `buf_free` and
`buf_next_to_write` drop to `buf_free % 512`, the active half flips), write
the area to the data file, record the new `write_lsn`, and — when the backend
has durable writes — advance `flushed_to_disk_lsn` with it.  The byte-level
flush-bit/checkpoint-no stamping and the write-ahead padding act on buffer
contents/file ranges that this state projection does not carry. -/
def log_write (durable : Bool) (s : LogSys) : LogSys × List LogEv :=
  if s.buf_free = s.buf_next_to_write then (s, [])
  else
    let start_offset := s.buf_next_to_write
    let end_offset := s.buf_free
    let area_start := OS_FILE_LOG_BLOCK_SIZE * (start_offset / OS_FILE_LOG_BLOCK_SIZE)
    let area_end := OS_FILE_LOG_BLOCK_SIZE *
      ((end_offset + (OS_FILE_LOG_BLOCK_SIZE - 1)) / OS_FILE_LOG_BLOCK_SIZE)
    let write_lsn := s.lsn
    let s1 := { s with first_in_use := !s.first_in_use
                       buf_free := s.buf_free % OS_FILE_LOG_BLOCK_SIZE
                       buf_next_to_write := s.buf_free % OS_FILE_LOG_BLOCK_SIZE
                       n_log_ios := s.n_log_ios + 1
                       write_lsn := write_lsn
                       flushed_to_disk_lsn :=
                         if durable then write_lsn else s.flushed_to_disk_lsn }
    (s1, [LogEv.data_write area_start area_end])

/-- Embedding of `log_write_flush_to_disk_low` (log0log.cc lines 918-930):
flush the data file and publish `flushed_to_disk_lsn = lsn`. -/
def log_write_flush_to_disk_low (lsn : Nat) (s : LogSys) : LogSys × List LogEv :=
  ({ s with flushed_to_disk_lsn := lsn }, [LogEv.data_flush])

/-- Embedding of `log_write_up_to` (log0log.cc lines 1092-1132) in a
single-thread run.  `recv_no_ibuf_operations` and the backend's
`data_writes_are_durable()` are passed as parameters.  The group-commit lock
acquisitions follow the spec model (§4.6): `flush_lock.acquire(lsn)` (resp.
`write_lock.acquire(lsn)`) is `ACQUIRED` exactly when the committed value is
below `lsn`; a non-`ACQUIRED` flush acquisition returns at once (the caller
is covered).  An owner snapshots `write_lsn = log_sys.lsn`, runs
`log_write()`, and releases the write lock at that snapshot; the flush stage
flushes `write_lock.value()` (via `log_write_flush_to_disk_low` plus the
`new_redo` data flush) unless writes are durable, then releases the flush
lock there. -/
def log_write_up_to (recv_no_ibuf_operations durable : Bool)
    (lsn : Nat) (flush_to_disk : Bool) (s : LogSys) : LogSys × List LogEv :=
  if recv_no_ibuf_operations then (s, [])
  else if flush_to_disk ∧ ¬ (s.flush_lock_value < lsn) then (s, [])
  else
    let p1 : LogSys × List LogEv :=
      if s.write_lock_value < lsn then
        let write_lsn := s.lsn
        let w := log_write durable s
        ({ w.1 with write_lock_value := write_lsn }, w.2)
      else (s, [])
    if flush_to_disk then
      let flush_lsn := p1.1.write_lock_value
      if durable then
        ({ p1.1 with flush_lock_value := flush_lsn }, p1.2)
      else
        let f := log_write_flush_to_disk_low flush_lsn p1.1
        ({ f.1 with flush_lock_value := flush_lsn },
         p1.2 ++ f.2 ++ [LogEv.data_flush])
    else p1

/-- Embedding of `log_buf_pool_get_oldest_modification` (log0log.cc lines
101-122): the buffer pool's oldest modification lsn (a parameter here, `0`
meaning no dirty page exists), or `log_sys.lsn` if there is none. -/
def log_buf_pool_get_oldest_modification (oldest_modification : Nat)
    (s : LogSys) : Nat :=
  if oldest_modification = 0 then s.lsn else oldest_modification

/-- Embedding of `log_checkpoint()` (log0log.cc lines 1262-1326) in a
single-thread run.  `oldest_modification` stands for
`buf_pool_get_oldest_modification()` (0 when the pool is clean); `durable`
is the backend's durable-writes bit, threaded into `log_write_up_to`.
The recovery branch and the tablespace flush touch no `log_sys` state.
Returns the `bool` result, the new state and the events. -/
def log_checkpoint (durable : Bool) (oldest_modification : Nat) (s : LogSys) :
    (Bool × LogSys) × List LogEv :=
  let flush_lsn := log_buf_pool_get_oldest_modification oldest_modification s
  if flush_lsn = s.last_checkpoint_lsn then
    -- nothing was logged since the previous checkpoint
    ((true, s), [])
  else
    let p := log_write_up_to false durable flush_lsn true s
    let s1 := p.1
    if s1.last_checkpoint_lsn = flush_lsn then ((true, s1), p.2)
    else if s1.n_pending_checkpoint_writes ≠ 0 then ((false, s1), p.2)
    else
      let s2 := { s1 with next_checkpoint_lsn := flush_lsn }
      -- n_pending_checkpoint_writes is incremented, the checkpoint record is
      -- written durably, and the count is decremented back
      let s3 := { s2 with n_log_ios := s2.n_log_ios + 1
                          last_checkpoint_lsn := s2.next_checkpoint_lsn }
      ((true, s3), p.2 ++ [LogEv.checkpoint_write flush_lsn])

/-- The file-static rate-limit state of `log_margin_checkpoint_age`
(log0log.cc lines 74-75). -/
structure MarginWarn where
  log_has_printed_chkp_margine_warning : Bool
  log_last_margine_warning_time : Nat
deriving DecidableEq

/-- Embedding of `log_margin_checkpoint_age` (log0log.cc lines 167-223).
`now` is `time(NULL)` in seconds; `difftime(now, last) > 15` becomes
`now - last > 15` on `Nat`.  If the margin exceeds the log capacity the
function only emits the rate-limited warning and returns; otherwise, if the
margin would push the checkpoint age past the capacity, it sets
`check_flush_or_checkpoint`, possibly sleeps (when the oldest dirty page is
itself too old to make the flushed log sufficient) and runs one
`log_checkpoint()`. -/
def log_margin_checkpoint_age (now : Nat) (durable : Bool)
    (oldest_modification : Nat) (margin : Nat) (s : LogSys) (w : MarginWarn) :
    (LogSys × MarginWarn) × List LogEv :=
  if margin > s.log_capacity then
    if ¬ w.log_has_printed_chkp_margine_warning ∨
        now - w.log_last_margine_warning_time > 15 then
      ((s, ⟨true, now⟩), [LogEv.margin_warning margin])
    else ((s, w), [])
  else if s.lsn - s.last_checkpoint_lsn + margin > s.log_capacity then
    let flushed_enough :=
      s.lsn - log_buf_pool_get_oldest_modification oldest_modification s + margin
        ≤ s.log_capacity
    let s1 := { s with check_flush_or_checkpoint := true }
    let sleepEv : List LogEv := if flushed_enough then [] else [LogEv.sleep]
    let c := log_checkpoint durable oldest_modification s1
    ((c.1.2, w), sleepEv ++ c.2)
  else ((s, w), [])

/-! ## Capacity thresholds: `log_set_capacity` (log0log.cc lines 405-458) -/

/-- Ratio for asynchronous checkpoints (`LOG_POOL_CHECKPOINT_RATIO_ASYNC`). -/
def LOG_POOL_CHECKPOINT_RATIO_ASYNC : Nat := 32
/-- Ratio for synchronous preflushing (`LOG_POOL_PREFLUSH_RATIO_SYNC`). -/
def LOG_POOL_PREFLUSH_RATIO_SYNC : Nat := 16
/-- Ratio for asynchronous preflushing (`LOG_POOL_PREFLUSH_RATIO_ASYNC`). -/
def LOG_POOL_PREFLUSH_RATIO_ASYNC : Nat := 8

/-- Per-thread free-space reserve, `4U << srv_page_size_shift`
(log0log.h line 49). -/
def LOG_CHECKPOINT_FREE_PER_THREAD (srv_page_size_shift : Nat) : Nat :=
  4 * 2 ^ srv_page_size_shift
/-- Extra free-space reserve, `8U << srv_page_size_shift`
(log0log.h line 50). -/
def LOG_CHECKPOINT_EXTRA_FREE (srv_page_size_shift : Nat) : Nat :=
  8 * 2 ^ srv_page_size_shift

/-- Embedding of `log_set_capacity` (log0log.cc lines 405-458).  The server
globals `srv_page_size_shift` and `srv_thread_concurrency` are parameters.
On success the capacity and the four age thresholds are stored. -/
def log_set_capacity (srv_page_size_shift srv_thread_concurrency : Nat)
    (file_size : Nat) (s : LogSys) : Bool × LogSys :=
  let smallest_capacity := file_size - file_size / 10
  let free := LOG_CHECKPOINT_FREE_PER_THREAD srv_page_size_shift *
      (10 + srv_thread_concurrency) +
      LOG_CHECKPOINT_EXTRA_FREE srv_page_size_shift
  if free ≥ smallest_capacity / 2 then (false, s)
  else
    let margin := smallest_capacity - free
    let margin2 := margin - margin / 10
    (true,
     { s with log_capacity := smallest_capacity
              max_modified_age_async :=
                margin2 - margin2 / LOG_POOL_PREFLUSH_RATIO_ASYNC
              max_modified_age_sync :=
                margin2 - margin2 / LOG_POOL_PREFLUSH_RATIO_SYNC
              max_checkpoint_age_async :=
                margin2 - margin2 / LOG_POOL_CHECKPOINT_RATIO_ASYNC
              max_checkpoint_age := margin2 })

/-! ## Concrete example states used by witnesses and counterexamples -/

/-- A baseline log state with something logged (lsn 10) and not yet written
out: three fresh bytes sit in the staging buffer, the last checkpoint was at
lsn 1, no checkpoint write is pending, both group-commit locks committed at
lsn 1 and everything up to lsn 1 is flushed. -/
def exBase : LogSys :=
  { lsn := 10
    buf_free := 3
    buf_next_to_write := 0
    first_in_use := true
    write_lsn := 1
    flushed_to_disk_lsn := 1
    last_checkpoint_lsn := 1
    next_checkpoint_lsn := 1
    next_checkpoint_no := 0
    n_pending_checkpoint_writes := 0
    n_log_ios := 0
    check_flush_or_checkpoint := false
    log_capacity := 1000
    max_modified_age_async := 700
    max_modified_age_sync := 800
    max_checkpoint_age_async := 900
    max_checkpoint_age := 1000
    write_lock_value := 1
    flush_lock_value := 1 }

/-- A clean, fully checkpointed log state: lsn 7 with the last checkpoint
also at lsn 7 and nothing pending. -/
def exClean : LogSys :=
  { exBase with lsn := 7
                buf_free := 7
                buf_next_to_write := 7
                write_lsn := 7
                flushed_to_disk_lsn := 7
                last_checkpoint_lsn := 7
                next_checkpoint_lsn := 7
                write_lock_value := 7
                flush_lock_value := 7 }

/-- A circular data file of 64 bytes with the cursor at offset 60 and the
sequence bit set. -/
def exRedo : RedoT :=
  { m_data_file_size := 64, m_data_file_position := 60, m_sequence_bit := true }

/-- A default block header (all fields zero, no stamped checkpoint). -/
def exBlock : LogBlock :=
  { hdr_no := 0, data_len := 0, first_rec_group := 0, checkpoint_no := none }

/-- A `log_write_low` state: lsn 1000, 500 bytes into the first buffer block,
checkpoint generation 7, all block headers fresh. -/
def exLW : LogWriteState :=
  { lsn := 1000, buf_free := 500, next_checkpoint_no := 7,
    blocks := fun _ => exBlock }

/-- A fresh warning-rate-limit state: no warning printed yet. -/
def exWarn : MarginWarn :=
  { log_has_printed_chkp_margine_warning := false
    log_last_margine_warning_time := 0 }

/-! ## Helper lemmas -/

/-- Adding a two-bit flag (`≤ 3`) to a multiple of four never changes the
length of its varint encoding, because all the range boundaries of the
encoder are multiples of four. -/
lemma mlog_encode_varint_length_add (n s : Nat) (h4 : n % 4 = 0) (hs : s ≤ 3) :
    (mlog_encode_varint (n + s)).length = (mlog_encode_varint n).length := by
  have h2 : MIN_2BYTE = 128 := rfl
  have h3 : MIN_3BYTE = 16512 := rfl
  have h4' : MIN_4BYTE = 2113664 := rfl
  have h5 : MIN_5BYTE = 270549120 := rfl
  unfold mlog_encode_varint
  split_ifs <;> simp_all <;> omega

/-- `log_write` never touches `last_checkpoint_lsn`. -/
lemma log_write_last_checkpoint_lsn (durable : Bool) (s : LogSys) :
    (log_write durable s).1.last_checkpoint_lsn = s.last_checkpoint_lsn := by
  unfold log_write; split_ifs <;> rfl

/-- `log_write` never touches `n_pending_checkpoint_writes`. -/
lemma log_write_n_pending (durable : Bool) (s : LogSys) :
    (log_write durable s).1.n_pending_checkpoint_writes
      = s.n_pending_checkpoint_writes := by
  unfold log_write; split_ifs <;> rfl

/-- `log_write_up_to` never touches `last_checkpoint_lsn`. -/
lemma log_write_up_to_last_checkpoint_lsn (recv durable : Bool) (lsn : Nat)
    (flush_to_disk : Bool) (s : LogSys) :
    (log_write_up_to recv durable lsn flush_to_disk s).1.last_checkpoint_lsn
      = s.last_checkpoint_lsn := by
  unfold log_write_up_to log_write_flush_to_disk_low
  split_ifs <;> simp [log_write_last_checkpoint_lsn]

/-- `log_write_up_to` never touches `n_pending_checkpoint_writes`. -/
lemma log_write_up_to_n_pending (recv durable : Bool) (lsn : Nat)
    (flush_to_disk : Bool) (s : LogSys) :
    (log_write_up_to recv durable lsn flush_to_disk s).1.n_pending_checkpoint_writes
      = s.n_pending_checkpoint_writes := by
  unfold log_write_up_to log_write_flush_to_disk_low
  split_ifs <;> simp [log_write_n_pending]

/-! ## C4: wrap behaviour of `append_wrapped` -/

/-- C4: for an append of size `s < data_file_size` from a cursor
`p < data_file_size`: if `p + s > data_file_size`, `append_wrapped` performs a
two-segment write, flips the sequence bit exactly once and resets the cursor
to 0 before writing the remainder (ending at `p + s - data_file_size`); if
`p + s = data_file_size`, the cursor is reset to 0 without a flip; if
`p + s < data_file_size`, neither a flip nor a reset occurs and the cursor
advances to `p + s`. -/
theorem append_wrapped_boundary (r : RedoT) (buf : List Nat)
    (hpos : r.m_data_file_position < r.m_data_file_size)
    (hlen : buf.length < r.m_data_file_size) :
    (r.m_data_file_position + buf.length > r.m_data_file_size →
      (r.append_wrapped buf).2 =
        [⟨r.m_data_file_position,
          buf.take (r.m_data_file_size - r.m_data_file_position)⟩,
         ⟨0, buf.drop (r.m_data_file_size - r.m_data_file_position)⟩] ∧
      (r.append_wrapped buf).1.m_sequence_bit = !r.m_sequence_bit ∧
      (r.append_wrapped buf).1.m_data_file_position
        = r.m_data_file_position + buf.length - r.m_data_file_size) ∧
    (r.m_data_file_position + buf.length = r.m_data_file_size →
      (r.append_wrapped buf).2 = [⟨r.m_data_file_position, buf⟩] ∧
      (r.append_wrapped buf).1.m_sequence_bit = r.m_sequence_bit ∧
      (r.append_wrapped buf).1.m_data_file_position = 0) ∧
    (r.m_data_file_position + buf.length < r.m_data_file_size →
      (r.append_wrapped buf).2 = [⟨r.m_data_file_position, buf⟩] ∧
      (r.append_wrapped buf).1.m_sequence_bit = r.m_sequence_bit ∧
      (r.append_wrapped buf).1.m_data_file_position
        = r.m_data_file_position + buf.length) := by
  refine ⟨fun h => ?_, fun h => ?_, fun h => ?_⟩
  · unfold RedoT.append_wrapped RedoT.flip_sequence_bit
    rw [if_pos h]
    refine ⟨rfl, rfl, ?_⟩
    simp only [List.length_drop, Nat.zero_add]
    rw [if_neg (by omega)]
    omega
  · unfold RedoT.append_wrapped
    rw [if_neg (by omega)]
    exact ⟨rfl, rfl, by simp [h]⟩
  · unfold RedoT.append_wrapped
    rw [if_neg (by omega)]
    exact ⟨rfl, rfl, by simp [Nat.ne_of_lt h]⟩

/-- C4 witness: the wrap case at the concrete 64-byte file with cursor 60 and
a 6-byte append. -/
theorem append_wrapped_boundary_witness :
    (exRedo.m_data_file_position < exRedo.m_data_file_size ∧
     ([1, 2, 3, 4, 5, 6] : List Nat).length < exRedo.m_data_file_size ∧
     exRedo.m_data_file_position + ([1, 2, 3, 4, 5, 6] : List Nat).length
       > exRedo.m_data_file_size) ∧
    ((exRedo.append_wrapped [1, 2, 3, 4, 5, 6]).2 =
      [⟨exRedo.m_data_file_position,
        ([1, 2, 3, 4, 5, 6] : List Nat).take
          (exRedo.m_data_file_size - exRedo.m_data_file_position)⟩,
       ⟨0, ([1, 2, 3, 4, 5, 6] : List Nat).drop
          (exRedo.m_data_file_size - exRedo.m_data_file_position)⟩] ∧
     (exRedo.append_wrapped [1, 2, 3, 4, 5, 6]).1.m_sequence_bit
       = !exRedo.m_sequence_bit ∧
     (exRedo.append_wrapped [1, 2, 3, 4, 5, 6]).1.m_data_file_position
       = exRedo.m_data_file_position + ([1, 2, 3, 4, 5, 6] : List Nat).length
         - exRedo.m_data_file_size) :=
  ⟨by decide,
   (append_wrapped_boundary exRedo [1, 2, 3, 4, 5, 6] (by decide) (by decide)).1
     (by decide)⟩

/-! ## C9: the cursor invariant of `append_wrapped` -/

/-- C9: an append of size strictly below `data_file_size` from a cursor
strictly below `data_file_size` leaves the cursor strictly below
`data_file_size` again (the at-rest invariant `cursor < file_size` is
preserved by every append). -/
theorem append_wrapped_cursor_invariant (r : RedoT) (buf : List Nat)
    (hpos : r.m_data_file_position < r.m_data_file_size)
    (hlen : buf.length < r.m_data_file_size) :
    (r.append_wrapped buf).1.m_data_file_position < r.m_data_file_size := by
  unfold RedoT.append_wrapped RedoT.flip_sequence_bit
  dsimp only
  split_ifs <;> simp only [List.length_drop] <;> omega

/-- C9 witness: a 2-byte append at the concrete 64-byte file with cursor
60. -/
theorem append_wrapped_cursor_invariant_witness :
    (exRedo.m_data_file_position < exRedo.m_data_file_size ∧
     ([1, 2] : List Nat).length < exRedo.m_data_file_size) ∧
    (exRedo.append_wrapped [1, 2]).1.m_data_file_position
      < exRedo.m_data_file_size :=
  ⟨by decide, append_wrapped_cursor_invariant exRedo [1, 2] (by decide) (by decide)⟩

/-! ## C8: record framing of `append_mtr_data` -/

/-- C8 counterexample: with the sequence bit set, the record handed to the
data file is not of the claimed shape (CRC-32C over the header and payload
bytes exactly as written): the header and payload bytes agree, but the stored
CRC was computed over the header with a zero sequence bit. -/
theorem append_mtr_data_crc_cex :
    (exRedo.append_mtr_data [0, 0, 0]).2
      ≠ specRecordBytes exRedo.m_sequence_bit [0, 0, 0] ∧
    ((exRedo.append_mtr_data [0, 0, 0]).2).take 4
      = (specRecordBytes exRedo.m_sequence_bit [0, 0, 0]).take 4 := by
  decide

/-- C8 amended: every record emitted by `append_mtr_data` is the varint
header `(size << 2) | (skip_bit << 1) | sequence_bit` (with `skip_bit = 0`
and `size = payload length + 4`), followed by the payload, followed by a
big-endian 4-byte CRC-32C — computed over the header *with the skip and
sequence bits still zero* plus the payload (the CRC is taken before the
sequence bit is patched into the header), so it equals the CRC of the bytes
as written exactly when the sequence bit is 0. -/
theorem append_mtr_data_record_format (r : RedoT) (payload : List Nat) :
    (r.append_mtr_data payload).2 =
      mlog_encode_varint
        ((payload.length + 4) % 2 ^ 32 * 4 % 2 ^ 32
          + (if r.m_sequence_bit then 1 else 0))
      ++ payload
      ++ mach_write_to_4 (ut_crc32
          (mlog_encode_varint ((payload.length + 4) % 2 ^ 32 * 4 % 2 ^ 32)
            ++ payload)) := by
  unfold RedoT.append_mtr_data
  have h4 : (payload.length + 4) % 2 ^ 32 * 4 % 2 ^ 32 % 4 = 0 := by
    have : (4 : Nat) ∣ (payload.length + 4) % 2 ^ 32 * 4 % 2 ^ 32 :=
      (Nat.dvd_mod_iff (by norm_num)).2 (dvd_mul_left 4 _)
    omega
  have hs : (if r.m_sequence_bit then 1 else 0) ≤ 3 := by
    split <;> omega
  have hlen := mlog_encode_varint_length_add
    ((payload.length + 4) % 2 ^ 32 * 4 % 2 ^ 32)
    (if r.m_sequence_bit then 1 else 0) h4 hs
  simp only [Nat.zero_mul, Nat.add_zero]
  rw [hlen]
  simp only [List.append_assoc, List.drop_left]

/-! ## C10: `log_write_up_to` under `recv_no_ibuf_operations` -/

/-- C10: with the recovery flag `recv_no_ibuf_operations` set,
`log_write_up_to` returns immediately for every lsn and every value of
`flush_to_disk`: no file write or flush is performed (the event list is
empty) and no `log_sys` field changes (the state is returned untouched), so
the `flushed_to_disk_lsn ≥ lsn` postcondition does not apply in that mode. -/
theorem log_write_up_to_recv_noop (durable : Bool) (lsn : Nat)
    (flush_to_disk : Bool) (s : LogSys) :
    log_write_up_to true durable lsn flush_to_disk s = (s, []) := rfl

/-! ## C1: the durability guarantee of `log_write_up_to` -/

/-- C1: outside recovery mode, a return from
`log_write_up_to(lsn, flush_to_disk = true)` guarantees
`flushed_to_disk_lsn ≥ lsn`, whether the caller became the write/flush wave
owner or was covered by a concurrent wave (a lock value already at or past
`lsn`).  The hypotheses are the system invariants relating the requested lsn
and the group-commit lock values to the log state: the requested lsn is not
in the future; everything the flush lock has committed is flushed; with a
durable-write backend everything written is also flushed; the write lock
never commits past `write_lsn`; and an empty staging buffer means everything
up to `lsn` was already written. -/
theorem log_write_up_to_flush_guarantee (durable : Bool) (lsn : Nat)
    (s : LogSys)
    (hle : lsn ≤ s.lsn)
    (hflush : s.flush_lock_value ≤ s.flushed_to_disk_lsn)
    (hdur : durable = true → s.write_lsn ≤ s.flushed_to_disk_lsn)
    (hwl : s.write_lock_value ≤ s.write_lsn)
    (hempty : s.buf_free = s.buf_next_to_write → s.write_lsn = s.lsn) :
    lsn ≤ (log_write_up_to false durable lsn true s).1.flushed_to_disk_lsn := by
  cases durable with
  | false =>
    by_cases h1 : s.flush_lock_value < lsn
    · by_cases h2 : s.write_lock_value < lsn
      · rcases eq_or_ne s.buf_free s.buf_next_to_write with hE | hE
        · have hw := hempty hE
          simp [log_write_up_to, log_write, log_write_flush_to_disk_low,
            h1, h2, hE]
          omega
        · simp [log_write_up_to, log_write, log_write_flush_to_disk_low,
            h1, h2, hE]
          omega
      · simp [log_write_up_to, log_write, log_write_flush_to_disk_low,
          h1, h2]
        omega
    · simp [log_write_up_to, h1]
      omega
  | true =>
    have hd := hdur rfl
    by_cases h1 : s.flush_lock_value < lsn
    · by_cases h2 : s.write_lock_value < lsn
      · rcases eq_or_ne s.buf_free s.buf_next_to_write with hE | hE
        · have hw := hempty hE
          simp [log_write_up_to, log_write, log_write_flush_to_disk_low,
            h1, h2, hE]
          omega
        · simp [log_write_up_to, log_write, log_write_flush_to_disk_low,
            h1, h2, hE]
          omega
      · simp [log_write_up_to, log_write, log_write_flush_to_disk_low,
          h1, h2]
        omega
    · simp [log_write_up_to, h1]
      omega

/-- C1 witness: at the concrete state `exBase` (non-durable backend), asking
for lsn 5 ends with `flushed_to_disk_lsn ≥ 5`. -/
theorem log_write_up_to_flush_guarantee_witness :
    (5 ≤ exBase.lsn ∧
     exBase.flush_lock_value ≤ exBase.flushed_to_disk_lsn ∧
     (false = true → exBase.write_lsn ≤ exBase.flushed_to_disk_lsn) ∧
     exBase.write_lock_value ≤ exBase.write_lsn ∧
     (exBase.buf_free = exBase.buf_next_to_write → exBase.write_lsn = exBase.lsn)) ∧
    5 ≤ (log_write_up_to false false 5 true exBase).1.flushed_to_disk_lsn :=
  ⟨by decide,
   log_write_up_to_flush_guarantee false 5 exBase (by decide) (by decide)
     (by decide) (by decide) (by decide)⟩

/-! ## C2: the lsn selected by `log_checkpoint` -/

/-- C2 counterexample: at the concrete state `exBase` (lsn 10, last
checkpoint 1) with oldest dirty-page lsn 5, `log_checkpoint` succeeds and
publishes `last_checkpoint_lsn = 5`, not
`max(oldest_dirty_lsn, log_sys.lsn) = 10` as claimed. -/
theorem log_checkpoint_max_formula_cex :
    (log_checkpoint false 5 exBase).1.1 = true ∧
    (log_checkpoint false 5 exBase).1.2.last_checkpoint_lsn
      ≠ max 5 exBase.lsn := by
  decide

/-- C2 amended: the checkpoint lsn `log_checkpoint()` selects is
`log_buf_pool_get_oldest_modification` — the oldest dirty-page lsn, or
`log_sys.lsn` only when the buffer pool is clean (not the maximum of the
two) — and on a successful return it publishes `last_checkpoint_lsn` equal to
that selected lsn, having written the durable checkpoint record there
whenever progress was needed. -/
theorem log_checkpoint_publishes_selected_lsn (durable : Bool)
    (oldest_modification : Nat) (s : LogSys) :
    ((log_checkpoint durable oldest_modification s).1.1 = true →
      (log_checkpoint durable oldest_modification s).1.2.last_checkpoint_lsn
        = log_buf_pool_get_oldest_modification oldest_modification s) ∧
    (log_buf_pool_get_oldest_modification oldest_modification s
        ≠ s.last_checkpoint_lsn →
      (log_checkpoint durable oldest_modification s).1.1 = true →
      LogEv.checkpoint_write
          (log_buf_pool_get_oldest_modification oldest_modification s)
        ∈ (log_checkpoint durable oldest_modification s).2) := by
  unfold log_checkpoint
  by_cases hF : log_buf_pool_get_oldest_modification oldest_modification s
      = s.last_checkpoint_lsn
  · simp [hF]
  · have hlast := log_write_up_to_last_checkpoint_lsn false durable
      (log_buf_pool_get_oldest_modification oldest_modification s) true s
    by_cases hp : (log_write_up_to false durable
        (log_buf_pool_get_oldest_modification oldest_modification s) true
        s).1.n_pending_checkpoint_writes ≠ 0
    · simp [hF, hlast, Ne.symm hF, hp]
    · simp [hF, hlast, Ne.symm hF, hp]

/-- C2 amended witness: the concrete run of the counterexample state, where
the selected lsn is the oldest modification 5. -/
theorem log_checkpoint_publishes_selected_lsn_witness :
    (log_checkpoint false 5 exBase).1.1 = true ∧
    (log_checkpoint false 5 exBase).1.2.last_checkpoint_lsn
      = log_buf_pool_get_oldest_modification 5 exBase :=
  ⟨by decide,
   (log_checkpoint_publishes_selected_lsn false 5 exBase).1 (by decide)⟩

/-! ## C3: the boolean result of `log_checkpoint` -/

/-- C3 counterexample: at the clean state `exClean` nothing was logged since
the previous checkpoint (no progress to make), yet `log_checkpoint` returns
`true` — so "returns false exactly when a concurrent checkpoint write was in
progress or no progress was made" is false at this input. -/
theorem log_checkpoint_result_cex :
    ¬ (((log_checkpoint false 0 exClean).1.1 = false) ↔
        (exClean.n_pending_checkpoint_writes ≠ 0 ∨
         log_buf_pool_get_oldest_modification 0 exClean
           = exClean.last_checkpoint_lsn)) := by
  decide

/-- C3 amended: `log_checkpoint()` returns `false` exactly when progress was
needed (the selected lsn differs from `last_checkpoint_lsn`) *and* a
concurrent checkpoint write was in progress (`n_pending_checkpoint_writes`
non-zero); when nothing was logged since the previous checkpoint it returns
`true`. -/
theorem log_checkpoint_false_iff (durable : Bool) (oldest_modification : Nat)
    (s : LogSys) :
    (log_checkpoint durable oldest_modification s).1.1 = false ↔
      (log_buf_pool_get_oldest_modification oldest_modification s
          ≠ s.last_checkpoint_lsn ∧
       s.n_pending_checkpoint_writes ≠ 0) := by
  unfold log_checkpoint
  by_cases hF : log_buf_pool_get_oldest_modification oldest_modification s
      = s.last_checkpoint_lsn
  · simp [hF]
  · have hlast := log_write_up_to_last_checkpoint_lsn false durable
      (log_buf_pool_get_oldest_modification oldest_modification s) true s
    have hpend := log_write_up_to_n_pending false durable
      (log_buf_pool_get_oldest_modification oldest_modification s) true s
    by_cases hp : s.n_pending_checkpoint_writes ≠ 0
    · simp [hF, hlast, hpend, Ne.symm hF, hp]
    · simp [hF, hlast, hpend, Ne.symm hF, hp]

/-! ## C5: block-boundary behaviour of `log_write_low` -/

/-- C5: in one `log_write_low` iteration, when the string does not fit in the
current log block, exactly `trailer_offset() - (buf_free mod 512)` payload
bytes are written into the current block; the block, having become full, has
its data length set to 512 and `next_checkpoint_no` stamped, the next block's
header is initialised with the then-current (already advanced) lsn, and the
lsn advances by the payload bytes written plus `framing_size()`.  When the
string fits strictly inside the block, only the payload bytes advance the
lsn, the block keeps its checkpoint-no stamp deferred and no next-block
header is initialised.  A string that fits (`≤`) finishes `log_write_low` in
this single iteration. -/
theorem log_write_low_block_boundary (enc_10_4 : Bool) (s : LogWriteState)
    (str_len : Nat) :
    (s.buf_free % OS_FILE_LOG_BLOCK_SIZE + str_len > trailer_offset enc_10_4 →
      (log_write_low_step enc_10_4 s str_len).2
        = (s.buf_free,
           trailer_offset enc_10_4 - s.buf_free % OS_FILE_LOG_BLOCK_SIZE) ∧
      (log_write_low_step enc_10_4 s str_len).1.1.blocks
          (s.buf_free / OS_FILE_LOG_BLOCK_SIZE)
        = { s.blocks (s.buf_free / OS_FILE_LOG_BLOCK_SIZE) with
            data_len := OS_FILE_LOG_BLOCK_SIZE
            checkpoint_no := some s.next_checkpoint_no } ∧
      (log_write_low_step enc_10_4 s str_len).1.1.blocks
          (s.buf_free / OS_FILE_LOG_BLOCK_SIZE + 1)
        = log_block_init ((log_write_low_step enc_10_4 s str_len).1.1.lsn) ∧
      (log_write_low_step enc_10_4 s str_len).1.1.lsn
        = s.lsn
          + (trailer_offset enc_10_4 - s.buf_free % OS_FILE_LOG_BLOCK_SIZE)
          + framing_size enc_10_4) ∧
    (s.buf_free % OS_FILE_LOG_BLOCK_SIZE + str_len < trailer_offset enc_10_4 →
      (log_write_low_step enc_10_4 s str_len).2 = (s.buf_free, str_len) ∧
      (log_write_low_step enc_10_4 s str_len).1.1.blocks
          (s.buf_free / OS_FILE_LOG_BLOCK_SIZE)
        = { s.blocks (s.buf_free / OS_FILE_LOG_BLOCK_SIZE) with
            data_len := s.buf_free % OS_FILE_LOG_BLOCK_SIZE + str_len } ∧
      ((log_write_low_step enc_10_4 s str_len).1.1.blocks
          (s.buf_free / OS_FILE_LOG_BLOCK_SIZE)).checkpoint_no
        = (s.blocks (s.buf_free / OS_FILE_LOG_BLOCK_SIZE)).checkpoint_no ∧
      (log_write_low_step enc_10_4 s str_len).1.1.blocks
          (s.buf_free / OS_FILE_LOG_BLOCK_SIZE + 1)
        = s.blocks (s.buf_free / OS_FILE_LOG_BLOCK_SIZE + 1) ∧
      (log_write_low_step enc_10_4 s str_len).1.1.lsn = s.lsn + str_len) ∧
    (s.buf_free % OS_FILE_LOG_BLOCK_SIZE + str_len ≤ trailer_offset enc_10_4 →
      log_write_low enc_10_4 s str_len
        = ((log_write_low_step enc_10_4 s str_len).1.1,
           [(log_write_low_step enc_10_4 s str_len).2])) := by
  refine ⟨fun h => ?_, fun h => ?_, fun h => ?_⟩
  · have hnle : ¬ (s.buf_free % OS_FILE_LOG_BLOCK_SIZE + str_len
        ≤ trailer_offset enc_10_4) := by omega
    simp [log_write_low_step, hnle]
    omega
  · have hle : s.buf_free % OS_FILE_LOG_BLOCK_SIZE + str_len
        ≤ trailer_offset enc_10_4 := by omega
    have hne : ¬ (s.buf_free % OS_FILE_LOG_BLOCK_SIZE + str_len
        = trailer_offset enc_10_4) := by omega
    simp [log_write_low_step, hle, hne]
  · have hrem : (log_write_low_step enc_10_4 s str_len).1.2 = 0 := by
      simp only [log_write_low_step, if_pos h]
      split_ifs <;> simp
    unfold log_write_low
    simp [log_write_low_aux, hrem]

/-- C5 witness: the concrete state `exLW` (offset 500 in the block, trailer
offset 508 in the unencrypted format) with a 20-byte string: 8 payload bytes
go into the current block, it is stamped with checkpoint generation 7, and
the next block is initialised at lsn 1024 = 1000 + 8 + 16. -/
theorem log_write_low_block_boundary_witness :
    (exLW.buf_free % OS_FILE_LOG_BLOCK_SIZE + 20 > trailer_offset false) ∧
    ((log_write_low_step false exLW 20).2
        = (exLW.buf_free,
           trailer_offset false - exLW.buf_free % OS_FILE_LOG_BLOCK_SIZE) ∧
     (log_write_low_step false exLW 20).1.1.blocks
         (exLW.buf_free / OS_FILE_LOG_BLOCK_SIZE)
       = { exLW.blocks (exLW.buf_free / OS_FILE_LOG_BLOCK_SIZE) with
           data_len := OS_FILE_LOG_BLOCK_SIZE
           checkpoint_no := some exLW.next_checkpoint_no } ∧
     (log_write_low_step false exLW 20).1.1.blocks
         (exLW.buf_free / OS_FILE_LOG_BLOCK_SIZE + 1)
       = log_block_init ((log_write_low_step false exLW 20).1.1.lsn) ∧
     (log_write_low_step false exLW 20).1.1.lsn
       = exLW.lsn
         + (trailer_offset false - exLW.buf_free % OS_FILE_LOG_BLOCK_SIZE)
         + framing_size false) :=
  ⟨by decide, (log_write_low_block_boundary false exLW 20).1 (by decide)⟩

/-! ## C6: the thresholds stored by `log_set_capacity` -/

/-- C6 counterexample: at page-size shift 12, thread concurrency 0 and file
size 450000, `log_set_capacity` succeeds but stores
`max_checkpoint_age = 187553`, which is neither the stored capacity 405000
nor the capacity minus a ~10% safety margin — it is less than half the
capacity — refuting `max_checkpoint_age = capacity` (with capacity =
`log_sys.log_capacity` and a ~10% margin subtracted). -/
theorem log_set_capacity_formula_cex :
    (log_set_capacity 12 0 450000 exBase).1 = true ∧
    (log_set_capacity 12 0 450000 exBase).2.max_checkpoint_age
      ≠ (log_set_capacity 12 0 450000 exBase).2.log_capacity ∧
    (log_set_capacity 12 0 450000 exBase).2.max_checkpoint_age
      ≠ (log_set_capacity 12 0 450000 exBase).2.log_capacity
        - (log_set_capacity 12 0 450000 exBase).2.log_capacity / 10 ∧
    2 * (log_set_capacity 12 0 450000 exBase).2.max_checkpoint_age
      < (log_set_capacity 12 0 450000 exBase).2.log_capacity := by
  decide

/-- C6 amended: after a successful `log_set_capacity(file_size)`, the stored
capacity is `file_size` minus a 10% safety margin; the age thresholds are
derived not from the capacity but from the margin
`M = (capacity - free) - (capacity - free)/10`, where `free` is the
per-thread reserve `(4 << page_size_shift) * (10 + thread_concurrency) +
(8 << page_size_shift)`: `max_checkpoint_age = M`,
`max_modified_age_async = M - M/8`, `max_modified_age_sync = M - M/16` and
`max_checkpoint_age_async = M - M/32`; success means the reserve is below
half the capacity. -/
theorem log_set_capacity_thresholds (shift conc file_size : Nat) (s : LogSys)
    (h : (log_set_capacity shift conc file_size s).1 = true) :
    (log_set_capacity shift conc file_size s).2.log_capacity
      = file_size - file_size / 10 ∧
    (log_set_capacity shift conc file_size s).2.max_checkpoint_age
      = ((file_size - file_size / 10)
          - (LOG_CHECKPOINT_FREE_PER_THREAD shift * (10 + conc)
             + LOG_CHECKPOINT_EXTRA_FREE shift))
        - ((file_size - file_size / 10)
          - (LOG_CHECKPOINT_FREE_PER_THREAD shift * (10 + conc)
             + LOG_CHECKPOINT_EXTRA_FREE shift)) / 10 ∧
    (log_set_capacity shift conc file_size s).2.max_modified_age_async
      = (log_set_capacity shift conc file_size s).2.max_checkpoint_age
        - (log_set_capacity shift conc file_size s).2.max_checkpoint_age
          / LOG_POOL_PREFLUSH_RATIO_ASYNC ∧
    (log_set_capacity shift conc file_size s).2.max_modified_age_sync
      = (log_set_capacity shift conc file_size s).2.max_checkpoint_age
        - (log_set_capacity shift conc file_size s).2.max_checkpoint_age
          / LOG_POOL_PREFLUSH_RATIO_SYNC ∧
    (log_set_capacity shift conc file_size s).2.max_checkpoint_age_async
      = (log_set_capacity shift conc file_size s).2.max_checkpoint_age
        - (log_set_capacity shift conc file_size s).2.max_checkpoint_age
          / LOG_POOL_CHECKPOINT_RATIO_ASYNC ∧
    LOG_CHECKPOINT_FREE_PER_THREAD shift * (10 + conc)
        + LOG_CHECKPOINT_EXTRA_FREE shift
      < (file_size - file_size / 10) / 2 := by
  have hc : ¬ (LOG_CHECKPOINT_FREE_PER_THREAD shift * (10 + conc)
      + LOG_CHECKPOINT_EXTRA_FREE shift
      ≥ (file_size - file_size / 10) / 2) := by
    intro hge
    simp only [log_set_capacity, if_pos hge] at h
    exact absurd h (by simp)
  simp [log_set_capacity, if_neg hc]
  omega

/-- C6 amended witness: the concrete parameters of the counterexample. -/
theorem log_set_capacity_thresholds_witness :
    (log_set_capacity 12 0 450000 exBase).1 = true ∧
    (log_set_capacity 12 0 450000 exBase).2.log_capacity
      = 450000 - 450000 / 10 :=
  ⟨by decide, (log_set_capacity_thresholds 12 0 450000 exBase (by decide)).1⟩

/-! ## C7: oversized margins in `log_margin_checkpoint_age` -/

/-- C7: for every `margin > log_sys.log_capacity`,
`log_margin_checkpoint_age(margin)` returns without triggering a checkpoint
and without sleeping — its only possible event is the warning — and leaves
the log state unchanged; the warning is emitted exactly when none was ever
printed or more than 15 seconds have passed since the last one, and after an
emission any further oversized-margin call within 15 seconds emits
nothing. -/
theorem log_margin_checkpoint_age_too_small (now : Nat) (durable : Bool)
    (oldest_modification margin : Nat) (s : LogSys) (w : MarginWarn)
    (h : margin > s.log_capacity) :
    (log_margin_checkpoint_age now durable oldest_modification margin s w).1.1
      = s ∧
    ((log_margin_checkpoint_age now durable oldest_modification margin s w).2
        = []
      ∨ (log_margin_checkpoint_age now durable oldest_modification margin s w).2
        = [LogEv.margin_warning margin]) ∧
    ((log_margin_checkpoint_age now durable oldest_modification margin s w).2
        = [LogEv.margin_warning margin] ↔
      (¬ w.log_has_printed_chkp_margine_warning = true ∨
       now - w.log_last_margine_warning_time > 15)) ∧
    (∀ now2 durable2 oldest2 margin2, margin2 > s.log_capacity →
      now2 ≤ now + 15 →
      (log_margin_checkpoint_age now durable oldest_modification margin s w).2
        = [LogEv.margin_warning margin] →
      (log_margin_checkpoint_age now2 durable2 oldest2 margin2 s
        (log_margin_checkpoint_age now durable oldest_modification margin s
          w).1.2).2 = []) := by
  unfold log_margin_checkpoint_age
  rw [if_pos h]
  by_cases hw : (¬ w.log_has_printed_chkp_margine_warning = true ∨
      now - w.log_last_margine_warning_time > 15)
  · rw [if_pos hw]
    refine ⟨rfl, Or.inr rfl, by simpa using hw, ?_⟩
    intro now2 durable2 oldest2 margin2 h2 hle _
    have hns : ¬ (now2 - now > 15) := by omega
    simp [h2, hns]
  · rw [if_neg hw]
    refine ⟨rfl, Or.inl rfl, by simpa using hw, ?_⟩
    intro now2 durable2 oldest2 margin2 h2 hle hcontr
    simp at hcontr

/-- C7 witness: margin 2000 against capacity 1000 at time 100, starting from
a fresh rate-limit state (so the warning is emitted). -/
theorem log_margin_checkpoint_age_too_small_witness :
    (2000 > exBase.log_capacity) ∧
    ((log_margin_checkpoint_age 100 false 0 2000 exBase exWarn).1.1 = exBase ∧
     ((log_margin_checkpoint_age 100 false 0 2000 exBase exWarn).2 = []
       ∨ (log_margin_checkpoint_age 100 false 0 2000 exBase exWarn).2
         = [LogEv.margin_warning 2000]) ∧
     ((log_margin_checkpoint_age 100 false 0 2000 exBase exWarn).2
         = [LogEv.margin_warning 2000] ↔
       (¬ exWarn.log_has_printed_chkp_margine_warning = true ∨
        100 - exWarn.log_last_margine_warning_time > 15)) ∧
     (∀ now2 durable2 oldest2 margin2, margin2 > exBase.log_capacity →
       now2 ≤ 100 + 15 →
       (log_margin_checkpoint_age 100 false 0 2000 exBase exWarn).2
         = [LogEv.margin_warning 2000] →
       (log_margin_checkpoint_age now2 durable2 oldest2 margin2 exBase
         (log_margin_checkpoint_age 100 false 0 2000 exBase exWarn).1.2).2
         = [])) :=
  ⟨by decide,
   log_margin_checkpoint_age_too_small 100 false 0 2000 exBase exWarn
     (by decide)⟩

end InnoRedo
